import Mathlib

/-!
Verification of the Orbity tag-cloud engine (src/orbity.js).

The development shallowly embeds the parts of the source the claims touch:

* `JsNum` models JavaScript numbers as rationals extended with the two
  infinities and NaN; arithmetic and comparisons follow the IEEE rules the
  engine exercises (signed zero is not tracked: no verified code path
  divides by a finite zero).
* `Tag` / `OrbityState` model the tag collection, the undo and redo stacks
  (arrays used as stacks via push/pop at the end) and a heap of `_screen`
  objects: JavaScript object spread `{...tag}` copies top-level fields and
  shares the `_screen` reference, so `_screen` is represented by an index
  (`screenRef`) into an allocation list `screens`.  A cell holding `none`
  is the freshly allocated empty object `{}` of the constructor path; the
  draw pass allocates a new cell and rebinds the reference, exactly as
  `tag._screen = {x, y, width, height}` does.
* The shape layout `_positionTags` writes `(x, y, z)` of every tag from the
  tag count and index alone (trigonometry over the chosen shape); the
  claims under verification never depend on the concrete coordinates, so
  the layout is a function parameter `layout : Nat → Nat → Coord3`
  (tag count, index ↦ coordinates) and the theorems quantify over it.
* `Math.random()` calls (tag angles) are passed in as parameters,
  `ctx.measureText` and image/svg load state are oracle parameters of the
  draw pass.
-/

namespace Orbity

/-- A JavaScript number: finite rational, +Infinity, -Infinity or NaN. -/
inductive JsNum where
  | fin (q : ℚ)
  | posInf
  | negInf
  | nan
deriving DecidableEq, Repr

/-- IEEE addition on `JsNum`. -/
def jsAdd : JsNum → JsNum → JsNum
  | .fin a, .fin b => .fin (a + b)
  | .fin _, .posInf => .posInf
  | .fin _, .negInf => .negInf
  | .posInf, .fin _ => .posInf
  | .negInf, .fin _ => .negInf
  | .posInf, .posInf => .posInf
  | .negInf, .negInf => .negInf
  | .posInf, .negInf => .nan
  | .negInf, .posInf => .nan
  | _, _ => .nan

/-- IEEE negation on `JsNum`. -/
def jsNeg : JsNum → JsNum
  | .fin a => .fin (-a)
  | .posInf => .negInf
  | .negInf => .posInf
  | .nan => .nan

/-- IEEE subtraction on `JsNum`. -/
def jsSub (a b : JsNum) : JsNum := jsAdd a (jsNeg b)

/-- IEEE multiplication on `JsNum` (`0 * ±∞ = NaN`). -/
def jsMul : JsNum → JsNum → JsNum
  | .fin a, .fin b => .fin (a * b)
  | .fin a, .posInf => if 0 < a then .posInf else if a < 0 then .negInf else .nan
  | .fin a, .negInf => if 0 < a then .negInf else if a < 0 then .posInf else .nan
  | .posInf, .fin b => if 0 < b then .posInf else if b < 0 then .negInf else .nan
  | .negInf, .fin b => if 0 < b then .negInf else if b < 0 then .posInf else .nan
  | .posInf, .posInf => .posInf
  | .negInf, .negInf => .posInf
  | .posInf, .negInf => .negInf
  | .negInf, .posInf => .negInf
  | _, _ => .nan

/-- IEEE division on `JsNum` (finite/±∞ = 0, ∞/∞ = NaN; the sign of a zero
divisor is not tracked, no verified path divides by a finite zero). -/
def jsDiv : JsNum → JsNum → JsNum
  | .fin a, .fin b =>
      if b = 0 then (if 0 < a then .posInf else if a < 0 then .negInf else .nan)
      else .fin (a / b)
  | .fin _, .posInf => .fin 0
  | .fin _, .negInf => .fin 0
  | .posInf, .fin b => if 0 ≤ b then .posInf else .negInf
  | .negInf, .fin b => if 0 ≤ b then .negInf else .posInf
  | _, _ => .nan

/-- IEEE `<=` as a boolean: any comparison with NaN is false. -/
def jsLeB : JsNum → JsNum → Bool
  | .nan, _ => false
  | _, .nan => false
  | .fin a, .fin b => a ≤ b
  | .negInf, _ => true
  | _, .posInf => true
  | .posInf, _ => false
  | .fin _, .negInf => false

/-- IEEE `<` as a boolean: any comparison with NaN is false. -/
def jsLtB : JsNum → JsNum → Bool
  | .nan, _ => false
  | _, .nan => false
  | .negInf, .negInf => false
  | .negInf, _ => true
  | .fin _, .negInf => false
  | .fin a, .fin b => a < b
  | .fin _, .posInf => true
  | .posInf, _ => false

/-- IEEE `>` as a boolean. -/
def jsGtB (a b : JsNum) : Bool := jsLtB b a

/-- `Math.abs`. -/
def jsAbs : JsNum → JsNum
  | .fin a => .fin |a|
  | .posInf => .posInf
  | .negInf => .posInf
  | .nan => .nan

/-- `isFinite`. -/
def JsNum.isFiniteB : JsNum → Bool
  | .fin _ => true
  | _ => false

/-- JavaScript truthiness of a number (`0` and `NaN` are falsy). -/
def jsTruthy : JsNum → Bool
  | .fin q => q ≠ 0
  | .nan => false
  | _ => true

/-- A possibly-undefined number field read in arithmetic position:
`undefined` coerces to NaN. -/
def numOf : Option JsNum → JsNum
  | some v => v
  | none => .nan

/-- Truthiness of a possibly-undefined string (`undefined` and `""` falsy). -/
def truthyS : Option String → Bool
  | some s => s ≠ ""
  | none => false

/-- `tag.fontSize || d` for a numeric field stored as a rational. -/
def finOr (v : Option ℚ) (d : ℚ) : JsNum :=
  .fin (match v with
        | some q => if q ≠ 0 then q else d
        | none => d)

/-- The `{x, y, width, height}` record written into `tag._screen` by the
draw pass. -/
structure ScreenBox where
  x : JsNum
  y : JsNum
  width : JsNum
  height : JsNum
deriving DecidableEq, Repr

/-- A `_screen` heap cell: `none` is the freshly allocated empty object `{}`
(all fields read as `undefined`), `some b` a box written by the draw pass. -/
abbrev ScreenVal := Option ScreenBox

/-- Input record accepted by `setTags` / `addTag` (fields absent in the
JavaScript object are `none`). -/
structure TagData where
  text : Option String := none
  color : Option String := none
  fontSize : Option ℚ := none
  imageUrl : Option String := none
  svg : Option String := none
deriving DecidableEq, Repr

/-- A live tag object.  `scaleF`, `colorF`, `opacityF` model the source
fields `_scale`, `_color`, `_opacity`; `screenRef` is the heap reference of
the `_screen` object; `x`, `y`, `z` are `none` until the layout first runs
(`undefined` in the source). -/
structure Tag where
  text : Option String
  color : Option String
  fontSize : Option ℚ
  imageUrl : Option String
  svg : Option String
  angleX : ℚ
  angleY : ℚ
  index : Nat
  screenRef : Nat
  scaleF : ℚ
  colorF : Option String
  opacityF : ℚ
  x : Option JsNum
  y : Option JsNum
  z : Option JsNum
deriving DecidableEq, Repr

/-- A history entry: `undoStack`/`redoStack` element.  The embedded `Tag`
values are the top-level copies `{...tag}` taken by the source (sharing
`screenRef` with the live tag they were copied from). -/
inductive HistEntry where
  | add (tag : Tag)
  | remove (tag : Tag) (index : Nat)
  | update (oldData newData : Tag)
deriving DecidableEq, Repr

/-- The mutable instance state the claims touch: the tag collection, both
history stacks (arrays used as stacks at the end) and the `_screen` heap. -/
structure OrbityState where
  tags : List Tag
  undoStack : List HistEntry
  redoStack : List HistEntry
  screens : List ScreenVal
deriving DecidableEq, Repr

/-- State right after the constructor ran (lines 41, 84-85). -/
def initialState : OrbityState :=
  { tags := [], undoStack := [], redoStack := [], screens := [] }

/-- Coordinates produced by the shape layout for one tag. -/
abbrev Coord3 := JsNum × JsNum × JsNum

/-- Abstract `_positionTags` placement rule: tag count and index determine
the written coordinates (every shape branch of the source depends only on
`N`, `i`, and the settings captured in the closure).  `none` means the
branch writes nothing for that tag and its previous coordinates survive:
the source's `pyramid` branch stops after `levels * (levels + 1) / 2`
tags, leaving trailing tags unwritten for large `N`; the other eight
branches write every tag.  The judged claims never depend on the concrete
coordinates and quantify over this rule. -/
abbrev Layout := Nat → Nat → Option Coord3

/-- Write layout coordinates into one tag. -/
def setCoords (t : Tag) (c : Coord3) : Tag :=
  { t with x := some c.1, y := some c.2.1, z := some c.2.2 }

/-- Apply the layout rule to the tag at index `i` of a collection of `n`:
overwrite its coordinates when the shape branch reaches it, keep them
otherwise. -/
def applyLayout (layout : Layout) (n i : Nat) (t : Tag) : Tag :=
  match layout n i with
  | some c => setCoords t c
  | none => t

/-- `_reindexTags` (lines 1223-1227): `index := position`. -/
def reindexTags (tags : List Tag) : List Tag :=
  tags.enum.map (fun p => { p.2 with index := p.1 })

/-- `_positionTags` (lines 851-993): early return on an empty collection,
otherwise run the shape rule over the collection. -/
def positionTags (layout : Layout) (tags : List Tag) : List Tag :=
  if tags.length = 0 then tags
  else tags.enum.map (fun p => applyLayout layout tags.length p.1 p.2)

/-- `/[0-9A-F]/i` on one character. -/
def isHexDigitChar (c : Char) : Bool :=
  c.isDigit || ('a' ≤ c && c ≤ 'f') || ('A' ≤ c && c ≤ 'F')

/-- `/^#[0-9A-F]{6}$/i`. -/
def isValidHexColor (s : String) : Bool :=
  let cs := s.toList
  cs.length = 7 && cs.headD ' ' = '#' && (cs.drop 1).all isHexDigitChar

/-- `_validateTag` (lines 441-451): text required and a non-empty string,
color required and a 6-digit hex code. -/
def validateTag (d : TagData) : Bool :=
  (match d.text with
   | some t => decide (t ≠ "")
   | none => false) &&
  (match d.color with
   | some c => decide (c ≠ "") && isValidHexColor c
   | none => false)

/-- The tag object literal shared by `setTags` and `addTag` (the `_img` and
`_svg` load slots are external resource state and are not modelled). -/
def buildTag (d : TagData) (aX aY : ℚ) (idx ref : Nat) : Tag :=
  { text := d.text, color := d.color, fontSize := d.fontSize,
    imageUrl := d.imageUrl, svg := d.svg,
    angleX := aX, angleY := aY, index := idx, screenRef := ref,
    scaleF := 1, colorF := d.color, opacityF := 1,
    x := none, y := none, z := none }

/-- `addTag` (lines 200-219): validate, push the tag, push an `add` history
entry holding the copy `{...newTag}` (taken before reindexing and layout),
clear the redo stack, reindex, re-run layout.  `aX`, `aY` stand for the two
`Math.random()` angle draws. -/
def addTag (layout : Layout) (aX aY : ℚ) (tagData : TagData)
    (s : OrbityState) : OrbityState :=
  if validateTag tagData then
    let newTag := buildTag tagData aX aY s.tags.length s.screens.length
    { tags := positionTags layout (reindexTags (s.tags ++ [newTag])),
      undoStack := s.undoStack ++ [.add newTag],
      redoStack := [],
      screens := s.screens ++ [none] }
  else s

/-- `removeTag` (lines 225-232): bounds check, splice the tag out, push a
`remove` entry with the copy `{...removedTag}` and the index, clear the
redo stack, reindex, re-run layout. -/
def removeTag (layout : Layout) (index : ℤ) (s : OrbityState) : OrbityState :=
  if index < 0 ∨ (s.tags.length : ℤ) ≤ index then s
  else
    match s.tags[index.toNat]? with
    | none => s
    | some removedTag =>
      { tags := positionTags layout (reindexTags (s.tags.eraseIdx index.toNat)),
        undoStack := s.undoStack ++ [.remove removedTag index.toNat],
        redoStack := [],
        screens := s.screens }

/-- Update payload of `updateTag` (a partial tag record). -/
structure UpdateData where
  text : Option String := none
  color : Option String := none
  fontSize : Option ℚ := none
  imageUrl : Option String := none
  svg : Option String := none
deriving DecidableEq, Repr

/-- `Object.assign(tag, data, {_scale: 1, _color: data.color ||
this.tags[index].color, _opacity: 1})` — the override record is evaluated
before the assignment runs, so when `data.color` is absent or empty the
`||` fallback reads the pre-update `color` content field (not the `_color`
override). -/
def applyUpdate (t : Tag) (d : UpdateData) : Tag :=
  { t with
    text := (d.text.orElse (fun _ => t.text)),
    color := (d.color.orElse (fun _ => t.color)),
    fontSize := (d.fontSize.orElse (fun _ => t.fontSize)),
    imageUrl := (d.imageUrl.orElse (fun _ => t.imageUrl)),
    svg := (d.svg.orElse (fun _ => t.svg)),
    scaleF := 1,
    colorF := (match d.color with
               | some c => if c ≠ "" then some c else t.color
               | none => t.color),
    opacityF := 1 }

/-- `updateTag` (lines 239-258): existence check, snapshot `{...tag}` as
`oldData`, assign the update in place, snapshot `{...tag}` again as
`newData`, push an `update` entry, clear the redo stack, reindex, layout. -/
def updateTag (layout : Layout) (index : Nat) (d : UpdateData)
    (s : OrbityState) : OrbityState :=
  match s.tags[index]? with
  | none => s
  | some oldTag =>
    let newTag := applyUpdate oldTag d
    { tags := positionTags layout (reindexTags (s.tags.set index newTag)),
      undoStack := s.undoStack ++ [.update oldTag newTag],
      redoStack := [],
      screens := s.screens }

/-- `Array.prototype.splice(i, 0, a)`: insert at `i`, clamped to the end. -/
def spliceInsert (i : Nat) (a : Tag) (l : List Tag) : List Tag :=
  l.take i ++ a :: l.drop i

/-- `undo` (lines 263-281): pop the last entry, push it on the redo stack,
apply the inverse (`add` → pop the collection, `remove` → splice the copy
back in, `update` → overwrite the tag at `oldData.index` with `oldData`),
reindex, layout.  When an `update` entry's recorded index no longer exists
in the collection (reachable after `clearTags` or `setTags` shrank it),
the source's `Object.assign(this.tags[oldData.index], oldData)` receives
an undefined target and THROWS a TypeError instead of applying the
inverse; this state transformer leaves the collection unchanged on that
branch, and `undoThrows` below marks exactly the states where the source
would throw. -/
def undo (layout : Layout) (s : OrbityState) : OrbityState :=
  match s.undoStack.getLast? with
  | none => s
  | some lastAction =>
    let tags :=
      match lastAction with
      | .add _ => s.tags.dropLast
      | .remove t i => spliceInsert i t s.tags
      | .update oldData _ => s.tags.set oldData.index oldData
    { tags := positionTags layout (reindexTags tags),
      undoStack := s.undoStack.dropLast,
      redoStack := s.redoStack ++ [lastAction],
      screens := s.screens }

/-- Whether the source's `undo` would throw on this state: the entry about
to be popped is an `update` whose recorded target `this.tags[oldData.index]`
is undefined, so `Object.assign` raises a TypeError and the recorded
inverse is not applied. -/
def undoThrows (s : OrbityState) : Bool :=
  match s.undoStack.getLast? with
  | some (.update oldData _) => s.tags[oldData.index]?.isNone
  | _ => false

/-- `redo` (lines 286-304): pop the last redo entry, push it back on the
undo stack, replay it (`add` → push the copy, `remove` → splice out,
`update` → overwrite with `newData`), reindex, layout.  The `update`
branch has the same throwing path as `undo` (an `Object.assign` onto
`this.tags[newData.index]`), modelled the same way. -/
def redo (layout : Layout) (s : OrbityState) : OrbityState :=
  match s.redoStack.getLast? with
  | none => s
  | some lastAction =>
    let tags :=
      match lastAction with
      | .add t => s.tags ++ [t]
      | .remove _ i => s.tags.eraseIdx i
      | .update _ newData => s.tags.set newData.index newData
    { tags := positionTags layout (reindexTags tags),
      undoStack := s.undoStack ++ [lastAction],
      redoStack := s.redoStack.dropLast,
      screens := s.screens }

/-- `clearTags` (lines 309-313): empty the collection, reindex, layout —
the history stacks are not touched. -/
def clearTags (layout : Layout) (s : OrbityState) : OrbityState :=
  { s with tags := positionTags layout (reindexTags []) }

/-! ## Event dispatcher (lines 82, 1178-1195, 1234-1255)

Callbacks are opaque and modelled by identifiers.  `_events` is initialized
as `{ tagClick: [], tagHover: [], tagLeave: [] }` and no key is ever added
to it, so it is a record with exactly those three fields; `on`/`off` do a
property lookup by name and silently skip unknown names. -/

/-- The `_events` object. -/
structure Events where
  tagClick : List Nat
  tagHover : List Nat
  tagLeave : List Nat
deriving DecidableEq, Repr

/-- `_events` as initialized by the constructor (line 82). -/
def initialEvents : Events := { tagClick := [], tagHover := [], tagLeave := [] }

/-- Property lookup `this._events[event]`. -/
def eventsGet (e : Events) (name : String) : Option (List Nat) :=
  if name = "tagClick" then some e.tagClick
  else if name = "tagHover" then some e.tagHover
  else if name = "tagLeave" then some e.tagLeave
  else none

/-- Property write `this._events[event] = l` (no key besides the three
initial ones exists, so writes to other names are unreachable). -/
def eventsSet (e : Events) (name : String) (l : List Nat) : Events :=
  if name = "tagClick" then { e with tagClick := l }
  else if name = "tagHover" then { e with tagHover := l }
  else if name = "tagLeave" then { e with tagLeave := l }
  else e

/-- `on` (lines 1234-1238), named `onEvent` here since `on` is reserved:
append the callback when the event key exists, otherwise do nothing. -/
def onEvent (name : String) (cb : Nat) (e : Events) : Events :=
  match eventsGet e name with
  | some l => eventsSet e name (l ++ [cb])
  | none => e

/-- `off` (lines 1245-1255): with no callback clear the list, otherwise
filter it; unknown event names do nothing. -/
def offEvent (name : String) (cb : Option Nat) (e : Events) : Events :=
  match eventsGet e name with
  | some l =>
      eventsSet e name
        (match cb with
         | none => []
         | some c => l.filter (fun x => x ≠ c))
  | none => e

/-- The callbacks `pause()` invokes: `this._events.pause?.forEach(cb=>cb())`
(line 1184) — the optional chain over the absent `pause` key. -/
def pauseFired (e : Events) : List Nat := (eventsGet e "pause").getD []

/-- The callbacks `resume()` invokes while paused (line 1194). -/
def resumeFired (e : Events) : List Nat := (eventsGet e "resume").getD []

/-! ## Settings (constructor lines 42-88) and `updateOptions` (319-433)

Settings values the engine itself writes are finite numbers; numeric
settings are modelled as rationals.  Incoming option values may fail the
`typeof` checks of `updateOptions`, so they arrive as `JVal`. -/

/-- An incoming option value: a (finite) number or a non-number value. -/
inductive JVal where
  | num (q : ℚ)
  | other
deriving DecidableEq, Repr

/-- The settings record (defaults of lines 43-69). -/
structure Settings where
  radius : ℚ := 150
  speed : ℚ := 1
  easing : ℚ := 1/10
  enableEasing : Bool := true
  paused : Bool := false
  enableTouch : Bool := true
  enableOrientation : Bool := false
  maxVelocity : ℚ := 1/2
  shape : String := "sphere"
  enableDrag : Bool := true
  enableClick : Bool := true
  autoSpin : Bool := true
  hoverEffect : Bool := true
  clickEffect : Bool := true
  hoverScale : ℚ := 12/10
  hoverColor : String := "#ff0"
  hoverOpacity : ℚ := 1
  customFont : String := "sans-serif"
  customFontWeight : String := "normal"
  easingProfile : String := "Smooth"
  customEaseIn : ℚ := 1/10
  customFriction : ℚ := 95/100
  autoEasing : Bool := true
  minVelocityThreshold : ℚ := 5/1000
  dragSensitivity : ℚ := 2
deriving DecidableEq, Repr

/-- Constructor options (numeric fields given as numbers; the modelled
value space is the finite numerics the clamp invariant concerns). -/
structure COptions where
  radius : Option ℚ := none
  speed : Option ℚ := none
  easing : Option ℚ := none
  maxVelocity : Option ℚ := none
  shape : Option String := none
  paused : Option Bool := none
  autoSpin : Option Bool := none
  autoEasing : Option Bool := none
  hoverScale : Option ℚ := none
  hoverOpacity : Option ℚ := none
  hoverColor : Option String := none
  customEaseIn : Option ℚ := none
  customFriction : Option ℚ := none
  minVelocityThreshold : Option ℚ := none
  dragSensitivity : Option ℚ := none
deriving DecidableEq, Repr

/-- `Object.assign(defaults, options)` followed by the constructor clamps
(lines 87-88): `easing` to `[0.01, 0.5]`, `speed` to `[0.001, 5]`. -/
def mkSettings (o : COptions) : Settings :=
  let m : Settings :=
    { radius := o.radius.getD 150, speed := o.speed.getD 1,
      easing := o.easing.getD (1/10), maxVelocity := o.maxVelocity.getD (1/2),
      shape := o.shape.getD "sphere", paused := o.paused.getD false,
      autoSpin := o.autoSpin.getD true, autoEasing := o.autoEasing.getD true,
      hoverScale := o.hoverScale.getD (12/10),
      hoverOpacity := o.hoverOpacity.getD 1,
      hoverColor := o.hoverColor.getD "#ff0",
      customEaseIn := o.customEaseIn.getD (1/10),
      customFriction := o.customFriction.getD (95/100),
      minVelocityThreshold := o.minVelocityThreshold.getD (5/1000),
      dragSensitivity := o.dragSensitivity.getD 2 }
  { m with
    easing := min (max m.easing (1/100)) (1/2),
    speed := min (max m.speed (1/1000)) 5 }

/-- The nine valid shape names (lines 348-358). -/
def validShapes : List String :=
  ["sphere", "cube", "plane", "helix", "ring", "verticalRing",
   "cylinder", "pyramid", "torus"]

/-- `EASING_PROFILES` (lines 7-11): `(easeIn, friction)` per profile. -/
def easingProfiles (name : String) : Option (ℚ × ℚ) :=
  if name = "Snappy" then some (2/10, 9/10)
  else if name = "Smooth" then some (1/10, 95/100)
  else if name = "Marathon" then some (5/100, 99/100)
  else none

/-- `setEasingProfile` (lines 625-638). -/
def setEasingProfile (name : String) (st : Settings) : Settings :=
  if name = "Custom" then { st with easingProfile := name }
  else
    match easingProfiles name with
    | some p =>
        { st with easingProfile := name, customEaseIn := p.1,
                  customFriction := p.2 }
    | none => st

/-- Options accepted by `updateOptions`; fields that undergo a `typeof`
check carry a `JVal`.  Fields of the source that only spread-merge and
rebind event listeners are external side effects and are not modelled. -/
structure NewOptions where
  easing : Option JVal := none
  speed : Option JVal := none
  radius : Option JVal := none
  maxVelocity : Option JVal := none
  shape : Option String := none
  easingProfile : Option String := none
  autoEasing : Option Bool := none
  paused : Option Bool := none
  customEaseIn : Option ℚ := none
  customFriction : Option ℚ := none
  minVelocityThreshold : Option ℚ := none
deriving DecidableEq, Repr

/-- `updateOptions` (lines 319-433) restricted to its settings effect:
spread-merge, then per-field validation.  `easing`/`speed` keep any
supplied number and fall back to `0.1`/`1` only on a non-number;
`radius`/`maxVelocity` additionally range-check and reset to their default;
`shape` resets to the default on an unknown name; the profile runs through
`setEasingProfile` before the direct `customEaseIn`/`customFriction`/
`minVelocityThreshold` assignments; a supplied `paused` value ends up
stored verbatim (`pause()` sets it, and for `false` the merge already
cleared it so `resume()` returns early). -/
def updateOptions (n : NewOptions) (st : Settings) : Settings :=
  let s1 :=
    { st with
      easing := (match n.easing with
                 | some (.num q) => q
                 | some .other => 1/10
                 | none => st.easing),
      speed := (match n.speed with
                | some (.num q) => q
                | some .other => 1
                | none => st.speed),
      radius := (match n.radius with
                 | some (.num q) => if q ≤ 0 then 150 else q
                 | some .other => 150
                 | none => st.radius),
      maxVelocity := (match n.maxVelocity with
                      | some (.num q) => if q < 0 then 1/2 else q
                      | some .other => 1/2
                      | none => st.maxVelocity),
      shape := (match n.shape with
                | some sh => if sh ∈ validShapes then sh else "sphere"
                | none => st.shape),
      paused := n.paused.getD st.paused }
  let s2 :=
    match n.easingProfile with
    | some p => setEasingProfile p s1
    | none => s1
  { s2 with
    autoEasing := n.autoEasing.getD s2.autoEasing,
    customEaseIn := n.customEaseIn.getD s2.customEaseIn,
    customFriction := n.customFriction.getD s2.customFriction,
    minVelocityThreshold := n.minVelocityThreshold.getD s2.minVelocityThreshold }

/-! ## Projection and draw pass (lines 995-1104) -/

/-- `tag._scale || 1`. -/
def scaleOr1 (t : Tag) : ℚ := if t.scaleF = 0 then 1 else t.scaleF

/-- The perspective denominator `center.x * 2 + tag.z` (line 1010). -/
def denomOf (cx : JsNum) (t : Tag) : JsNum :=
  jsAdd (jsMul cx (.fin 2)) (numOf t.z)

/-- `scale = denominator > 0 ? (center.x * 2) / denominator : 1`
(line 1011). -/
def projScale (cx : JsNum) (t : Tag) : JsNum :=
  if jsGtB (denomOf cx t) (.fin 0) then jsDiv (jsMul cx (.fin 2)) (denomOf cx t)
  else .fin 1

/-- The unguarded screen abscissa `tag.x * scale + center.x` (line 1012). -/
def rawScreenX (cx : JsNum) (t : Tag) : JsNum :=
  jsAdd (jsMul (numOf t.x) (projScale cx t)) cx

/-- The unguarded screen ordinate `tag.y * scale + center.y` (line 1015). -/
def rawScreenY (cx cy : JsNum) (t : Tag) : JsNum :=
  jsAdd (jsMul (numOf t.y) (projScale cx t)) cy

/-- Projection of one tag (lines 1010-1022): scale with its positivity
guard, screen coordinates falling back to the viewport center when
non-finite, font size falling back to 15 when non-finite. -/
def projectTag (cx cy : JsNum) (t : Tag) : JsNum × JsNum × JsNum × JsNum :=
  let scale := projScale cx t
  let x := if (rawScreenX cx t).isFiniteB then rawScreenX cx t else cx
  let y := if (rawScreenY cx cy t).isFiniteB then rawScreenY cx cy t else cy
  let fsRaw := jsMul (jsMul (finOr t.fontSize 15) scale) (.fin (scaleOr1 t))
  let fs := if fsRaw.isFiniteB then fsRaw else .fin 15
  (scale, x, y, fs)

/-- The draw-pass filter (lines 999-1006): some drawable content and
numeric coordinates (`typeof x === "number"`, NaN and infinities
included). -/
def drawFilter (t : Tag) : Bool :=
  (t.text.isSome || truthyS t.imageUrl || truthyS t.svg) &&
  t.x.isSome && t.y.isSome && t.z.isSome

/-- Insertion step of the depth sort with the source comparator
`(a, b) => b.z - a.z` (line 1007): the later element goes first exactly
when the comparator is positive.  (`Array.prototype.sort` fixes no
algorithm; insertion sort realizes one order consistent with the
comparator, which is the unique descending order on distinct finite
depths.) -/
def insertByZ (p : Nat × Tag) : List (Nat × Tag) → List (Nat × Tag)
  | [] => [p]
  | q :: qs =>
      if jsGtB (jsSub (numOf q.2.z) (numOf p.2.z)) (.fin 0) then
        q :: insertByZ p qs
      else p :: q :: qs

/-- Depth sort by descending `z` (line 1007), carrying each tag's position
in the collection (object identity of the aliased array elements). -/
def sortByZDesc : List (Nat × Tag) → List (Nat × Tag)
  | [] => []
  | p :: ps => insertByZ p (sortByZDesc ps)

/-- The filtered, depth-sorted draw order of a collection, as
(position, tag) pairs (lines 998-1007). -/
def drawOrder (tags : List Tag) : List (Nat × Tag) :=
  sortByZDesc (tags.enum.filter (fun p => drawFilter p.2))

/-- The screen box one drawn tag produces (lines 1037-1099): an image or
vector tag whose resource finished loading gets a square box of the font
size; otherwise a tag with truthy text gets a measured text box; otherwise
no box is written.  `measure` is the `ctx.measureText` oracle (font size,
text ↦ width), `imgReady`/`svgReady` the external load state keyed by the
tag's index. -/
def drawTagScreen (cx cy : JsNum) (measure : JsNum → String → JsNum)
    (imgReady svgReady : Nat → Bool) (t : Tag) : Option ScreenBox :=
  let pr := projectTag cx cy t
  let x := pr.2.1
  let y := pr.2.2.1
  let fs := pr.2.2.2
  if truthyS t.imageUrl && imgReady t.index then
    some { x := x, y := y, width := fs, height := fs }
  else if truthyS t.svg && svgReady t.index then
    some { x := x, y := y, width := fs, height := fs }
  else if truthyS t.text then
    some { x := x, y := y, width := measure fs (t.text.getD ""), height := fs }
  else none

/-- Rebind the `_screen` reference of the live tag at position `i`. -/
def setTagScreenRef (tags : List Tag) (i r : Nat) : List Tag :=
  match tags[i]? with
  | some t => tags.set i { t with screenRef := r }
  | none => tags

/-- The draw loop over the sorted order: each drawn tag allocates a fresh
`_screen` object on the heap and rebinds the live tag's reference
(`tag._screen = {x, y, width, height}`); existing heap cells are never
written. -/
def drawLoop (cx cy : JsNum) (measure : JsNum → String → JsNum)
    (imgReady svgReady : Nat → Bool) :
    List (Nat × Tag) → List Tag → List ScreenVal → List Tag × List ScreenVal
  | [], tags, screens => (tags, screens)
  | p :: rest, tags, screens =>
      match drawTagScreen cx cy measure imgReady svgReady p.2 with
      | some box =>
          drawLoop cx cy measure imgReady svgReady rest
            (setTagScreenRef tags p.1 screens.length) (screens ++ [some box])
      | none => drawLoop cx cy measure imgReady svgReady rest tags screens

/-- `_draw` (lines 995-1104) restricted to its engine-state effect: filter,
depth-sort, project every tag in order, write the screen boxes.  Raster
calls, global alpha and the focus ring touch only the external drawing
surface. -/
def drawPass (cx cy : JsNum) (measure : JsNum → String → JsNum)
    (imgReady svgReady : Nat → Bool) (s : OrbityState) : OrbityState :=
  let r := drawLoop cx cy measure imgReady svgReady (drawOrder s.tags)
             s.tags s.screens
  { s with tags := r.1, screens := r.2 }

/-- `setTags` (lines 169-185): rebuild the collection from the data array
(fresh `_screen` objects, random angles via `angles`), reindex, layout,
draw.  The history stacks are not mentioned anywhere in its body. -/
def setTags (layout : Layout) (cx cy : JsNum)
    (measure : JsNum → String → JsNum) (imgReady svgReady : Nat → Bool)
    (angles : Nat → ℚ × ℚ) (dataArray : List TagData)
    (s : OrbityState) : OrbityState :=
  let base := s.screens.length
  let tags := dataArray.enum.map
    (fun p => buildTag p.2 (angles p.1).1 (angles p.1).2 p.1 (base + p.1))
  drawPass cx cy measure imgReady svgReady
    { s with
      tags := positionTags layout (reindexTags tags),
      screens := s.screens ++ List.replicate dataArray.length none }

/-! ## Hit testing (lines 838-849) -/

/-- The axis-aligned box test of `_getTagAt` (lines 843-845):
`|pt.x - s.x| <= s.width / 2 && |pt.y - s.y| <= s.height / 2`. -/
def hitBox (b : ScreenBox) (pt : JsNum × JsNum) : Bool :=
  jsLeB (jsAbs (jsSub pt.1 b.x)) (jsDiv b.width (.fin 2)) &&
  jsLeB (jsAbs (jsSub pt.2 b.y)) (jsDiv b.height (.fin 2))

/-- Whether a tag's current `_screen` object contains the pointer: a cell
still holding the empty object `{}` reads all fields as `undefined`, every
comparison with the resulting NaN is false, so it never matches. -/
def screenMatches (screens : List ScreenVal) (t : Tag)
    (pt : JsNum × JsNum) : Bool :=
  match screens[t.screenRef]? with
  | some (some b) => hitBox b pt
  | _ => false

/-- `_getTagAt` (lines 838-849): iterate the collection from the last index
to the first, return the first tag whose box contains the pointer, else
null. -/
def getTagAt (s : OrbityState) (pt : JsNum × JsNum) : Option Tag :=
  s.tags.reverse.find? (fun t => screenMatches s.screens t pt)

/-- The positions, in draw order, of the drawn tags of `s` whose box in
`s.screens` contains the pointer; the last one is the most recently drawn
(visually topmost) match. -/
def lastDrawnHitPos (s : OrbityState) (pt : JsNum × JsNum) : Option Nat :=
  (((drawOrder s.tags).map Prod.fst).filter
    (fun i => match s.tags[i]? with
              | some t => screenMatches s.screens t pt
              | none => false)).getLast?

/-! ## Live-tag mutations outside the store (for the snapshot claims) -/

/-- The in-place coordinate rotation of `_animate` (lines 1158-1168); the
four trigonometric values of the tick are parameters. -/
def rotateTag (cosY sinY cosX sinX : JsNum) (t : Tag) : Tag :=
  let x := numOf t.x
  let y := numOf t.y
  let z := numOf t.z
  let nx := jsSub (jsMul x cosY) (jsMul z sinY)
  let nz := jsAdd (jsMul x sinY) (jsMul z cosY)
  let ny := jsSub (jsMul y cosX) (jsMul nz sinX)
  let nz2 := jsAdd (jsMul y sinX) (jsMul nz cosX)
  { t with x := some nx, y := some ny, z := some nz2 }

/-- The per-tick rotation sweep over the live collection. -/
def rotateTagsTick (cosY sinY cosX sinX : JsNum) (s : OrbityState) :
    OrbityState :=
  { s with tags := s.tags.map (rotateTag cosY sinY cosX sinX) }

/-- The hover-effect mutation of `_onCanvasMouseMove` (lines 759-763):
`tag._scale = hoverScale; tag._color = hoverColor || tag.color;
tag._opacity = hoverOpacity` on the tag at position `i`. -/
def applyHoverEffect (i : Nat) (hs : ℚ) (hc : String) (ho : ℚ)
    (s : OrbityState) : OrbityState :=
  match s.tags[i]? with
  | some t =>
      { s with
        tags := s.tags.set i
          { t with scaleF := hs,
                   colorF := if hc ≠ "" then some hc else t.color,
                   opacityF := ho } }
  | none => s

/-- The `_screen` heap references a history entry holds. -/
def historyScreenRefs : HistEntry → List Nat
  | .add t => [t.screenRef]
  | .remove t _ => [t.screenRef]
  | .update o n => [o.screenRef, n.screenRef]

/-- "History entries own private deep copies (no aliasing with live tag
objects)": no entry on either stack shares a `_screen` reference with a
live tag. -/
def snapshotsIndependent (s : OrbityState) : Prop :=
  ∀ e ∈ s.undoStack ++ s.redoStack, ∀ t ∈ s.tags,
    t.screenRef ∉ historyScreenRefs e

instance (s : OrbityState) : Decidable (snapshotsIndependent s) := by
  unfold snapshotsIndependent; infer_instance

/-! ## Friction decay (`_applyDragEasing`, lines 648-664) -/

/-- One scalar decay step: multiply by the friction constant, snap to zero
below the threshold. -/
def stepS (friction threshold v : ℚ) : ℚ :=
  let w := v * friction
  if |w| < threshold then 0 else w

/-- One `easeOut` tick on both velocity components (lines 652-656). -/
def easeOutStep (friction threshold : ℚ) (v : ℚ × ℚ) : ℚ × ℚ :=
  (stepS friction threshold v.1, stepS friction threshold v.2)

/-- The reschedule guard of `easeOut` (line 658): another frame is
requested exactly when some component is still nonzero. -/
def easeOutReschedules (v : ℚ × ℚ) : Prop := v.1 ≠ 0 ∨ v.2 ≠ 0

instance (v : ℚ × ℚ) : Decidable (easeOutReschedules v) := by
  unfold easeOutReschedules; infer_instance

/-- `pause` (lines 1178-1185) restricted to engine state: set the paused
flag, cancel the frame (external), and return the callbacks invoked via
the optional chain over `_events.pause`. -/
def pauseOp (st : Settings) (e : Events) : Settings × List Nat :=
  ({ st with paused := true }, pauseFired e)

/-- `resume` (lines 1190-1195): early return when not paused, else clear
the flag, restart the animation (external) and return the callbacks
invoked via the optional chain over `_events.resume`. -/
def resumeOp (st : Settings) (e : Events) : Settings × List Nat :=
  if st.paused then ({ st with paused := false }, resumeFired e) else (st, [])

/-! ## Concrete fixtures for counterexamples and witnesses -/

/-- A trivial concrete layout rule (places every tag at the origin). -/
def lay0 : Layout := fun _ _ => some (.fin 0, .fin 0, .fin 0)

/-- A valid tag input. -/
def tagDataA : TagData := { text := some "A", color := some "#ffffff" }

/-- A concrete positioned text tag used by the hit-test counterexample. -/
def cexTag (nm : String) (idx : Nat) (zq : ℚ) : Tag :=
  { text := some nm, color := some "#ffffff", fontSize := none,
    imageUrl := none, svg := none, angleX := 0, angleY := 0,
    index := idx, screenRef := idx, scaleF := 1,
    colorF := some "#ffffff", opacityF := 1,
    x := some (.fin 0), y := some (.fin 0), z := some (.fin zq) }

/-- Two overlapping tags: position 0 is nearer (z = -10, drawn last, so
visually topmost), position 1 is farther (z = 10, drawn first). -/
def c7State0 : OrbityState :=
  { tags := [cexTag "t0" 0 (-10), cexTag "t1" 1 10],
    undoStack := [], redoStack := [], screens := [none, none] }

/-- The state after one draw pass over `c7State0` (viewport center
(50, 50), every text measured 20 wide). -/
def c7Drawn : OrbityState :=
  drawPass (.fin 50) (.fin 50) (fun _ _ => .fin 20)
    (fun _ => false) (fun _ => false) c7State0

/-- A pointer inside both projected boxes of `c7Drawn`. -/
def c7Pt : JsNum × JsNum := (.fin 50, .fin 50)

/-- A tag whose depth is `+Infinity` (the perspective denominator is then
non-finite but still passes the `> 0` guard). -/
def tagInfZ : Tag :=
  { cexTag "T" 0 0 with z := some .posInf }

/-- A tag at depth `-Infinity`: the perspective denominator fails the
`> 0` guard, so the scale takes the fallback `1`. -/
def tagNegDenom : Tag :=
  { cexTag "T" 0 0 with z := some .negInf }

/-! ## Helper lemmas -/

theorem length_reindexTags (l : List Tag) : (reindexTags l).length = l.length := by
  simp [reindexTags, List.enum_length]

theorem length_positionTags (lay : Layout) (l : List Tag) :
    (positionTags lay l).length = l.length := by
  unfold positionTags
  split
  · rfl
  · simp [List.enum_length]

theorem length_setTagScreenRef (tags : List Tag) (i r : Nat) :
    (setTagScreenRef tags i r).length = tags.length := by
  unfold setTagScreenRef
  cases tags[i]? <;> simp

theorem drawLoop_tags_length (cx cy : JsNum) (m : JsNum → String → JsNum)
    (ir sr : Nat → Bool) :
    ∀ (order : List (Nat × Tag)) (tags : List Tag) (screens : List ScreenVal),
      ((drawLoop cx cy m ir sr order tags screens).1).length = tags.length := by
  intro order
  induction order with
  | nil => intro tags screens; rfl
  | cons p rest ih =>
      intro tags screens
      unfold drawLoop
      cases drawTagScreen cx cy m ir sr p.2 with
      | none => exact ih tags screens
      | some box =>
          simpa [length_setTagScreenRef] using
            ih (setTagScreenRef tags p.1 screens.length) (screens ++ [some box])

theorem drawLoop_screens_stable (cx cy : JsNum) (m : JsNum → String → JsNum)
    (ir sr : Nat → Bool) :
    ∀ (order : List (Nat × Tag)) (tags : List Tag) (screens : List ScreenVal)
      (r : Nat), r < screens.length →
      ((drawLoop cx cy m ir sr order tags screens).2)[r]? = screens[r]? := by
  intro order
  induction order with
  | nil => intro tags screens r _; rfl
  | cons p rest ih =>
      intro tags screens r hr
      unfold drawLoop
      cases drawTagScreen cx cy m ir sr p.2 with
      | none => exact ih tags screens r hr
      | some box =>
          have h2 : r < (screens ++ [some box]).length := by
            simp only [List.length_append, List.length_singleton]
            omega
          rw [ih (setTagScreenRef tags p.1 screens.length)
                (screens ++ [some box]) r h2]
          exact List.getElem?_append_left hr

theorem drawPass_tags_length (cx cy : JsNum) (m : JsNum → String → JsNum)
    (ir sr : Nat → Bool) (s : OrbityState) :
    (drawPass cx cy m ir sr s).tags.length = s.tags.length := by
  unfold drawPass
  exact drawLoop_tags_length cx cy m ir sr _ _ _

theorem find?_decomp {α : Type _} (p : α → Bool) :
    ∀ (l : List α) (t : α), l.find? p = some t →
      p t = true ∧ ∃ l₁ l₂, l = l₁ ++ t :: l₂ ∧ ∀ x ∈ l₁, p x = false := by
  intro l
  induction l with
  | nil => intro t h; simp at h
  | cons a as ih =>
      intro t h
      by_cases hpa : p a = true
      · rw [List.find?_cons_of_pos _ hpa] at h
        obtain rfl : a = t := by injection h
        exact ⟨hpa, [], as, rfl, by intro x hx; simp at hx⟩
      · rw [List.find?_cons_of_neg _ (by simpa using hpa)] at h
        obtain ⟨hpt, l₁, l₂, rfl, hl₁⟩ := ih t h
        refine ⟨hpt, a :: l₁, l₂, rfl, ?_⟩
        intro x hx
        rcases List.mem_cons.mp hx with rfl | hx
        · simpa using hpa
        · exact hl₁ x hx

/-! ## Claim theorems -/

/-- C6: `addTag(tagData)` is a no-op — tag collection, history stacks and
screen heap all unchanged, no exception — whenever `tagData.text` is not a
non-empty string or `tagData.color` does not match the 6-digit hex
pattern. -/
theorem c6_addTag_rejects_invalid (layout : Layout) (aX aY : ℚ)
    (d : TagData) (s : OrbityState)
    (h : (∀ t, d.text = some t → t = "") ∨
         (∀ c, d.color = some c → isValidHexColor c = false)) :
    addTag layout aX aY d s = s := by
  have hv : validateTag d = false := by
    unfold validateTag
    rcases h with h | h
    · cases ht : d.text with
      | none => simp
      | some t => have := h t ht; simp [this]
    · cases hc : d.color with
      | none => simp
      | some c => have := h c hc; simp [this]
  simp [addTag, hv]

theorem c6_addTag_rejects_invalid_witness :
    addTag lay0 0 0 { text := some "X" } initialState = initialState :=
  c6_addTag_rejects_invalid lay0 0 0 { text := some "X" } initialState
    (Or.inr (by intro c hc; cases hc))

/-- C10 counterexample: after `addTag(valid); updateTag(0, {color});
clearTags()`, the history entries survive (the undo stack still holds two
entries), but the subsequent `undo` does *not* apply its recorded inverse
against the now-empty collection — the popped entry is an `update` whose
recorded target `this.tags[0]` is undefined, so the source's
`Object.assign` throws a TypeError (`undoThrows` holds), refuting the
claim's closing clause. -/
theorem c10_undo_after_clear_throws_cex :
    undoThrows (clearTags lay0 (updateTag lay0 0 { color := some "#000000" }
      (addTag lay0 0 0 tagDataA initialState))) = true ∧
    (clearTags lay0 (updateTag lay0 0 { color := some "#000000" }
      (addTag lay0 0 0 tagDataA initialState))).undoStack.length = 2 := by
  decide

/-- C10 amended: `clearTags` empties the tag collection but leaves both
history stacks (and the screen heap) unchanged — no entry is pushed or
removed, so entries recorded before `clearTags` remain.  A subsequent
`undo` still pops the top preserved entry onto the redo stack; for an
`add` entry the inverse pops the empty collection (still empty), for a
`remove` entry it splices the recorded copy back in, but for an `update`
entry the recorded index no longer exists in the emptied collection and
the source throws a TypeError instead of applying the inverse. -/
theorem c10_clearTags_preserves_history (layout layout2 : Layout)
    (s : OrbityState) :
    (clearTags layout s).tags = [] ∧
    (clearTags layout s).undoStack = s.undoStack ∧
    (clearTags layout s).redoStack = s.redoStack ∧
    (clearTags layout s).screens = s.screens ∧
    (∀ e, s.undoStack.getLast? = some e →
      (undo layout2 (clearTags layout s)).undoStack = s.undoStack.dropLast ∧
      (undo layout2 (clearTags layout s)).redoStack = s.redoStack ++ [e]) ∧
    (∀ t, s.undoStack.getLast? = some (.add t) →
      (undo layout2 (clearTags layout s)).tags = []) ∧
    (∀ t i, s.undoStack.getLast? = some (.remove t i) →
      (undo layout2 (clearTags layout s)).tags
        = [applyLayout layout2 1 0 { t with index := 0 }]) ∧
    (∀ oldD newD, s.undoStack.getLast? = some (.update oldD newD) →
      undoThrows (clearTags layout s) = true) := by
  have hcu : (clearTags layout s).undoStack = s.undoStack := rfl
  refine ⟨rfl, rfl, rfl, rfl, ?_, ?_, ?_, ?_⟩
  · intro e he
    constructor <;> simp [undo, hcu, he, clearTags]
  · intro t ht
    simp [undo, hcu, ht, clearTags, reindexTags, positionTags]
  · intro t i ht
    simp [undo, hcu, ht, clearTags, spliceInsert, reindexTags, positionTags,
      List.enum]
  · intro oldD newD ht
    simp [undoThrows, hcu, ht, clearTags, reindexTags, positionTags]

theorem c10_clearTags_preserves_history_witness :
    (clearTags lay0 (addTag lay0 0 0 tagDataA initialState)).tags = [] ∧
    (undo lay0 (clearTags lay0 (addTag lay0 0 0 tagDataA initialState))).undoStack
      = (addTag lay0 0 0 tagDataA initialState).undoStack.dropLast ∧
    (undo lay0 (clearTags lay0 (addTag lay0 0 0 tagDataA initialState))).tags
      = [] := by
  refine ⟨(c10_clearTags_preserves_history lay0 lay0 _).1, ?_, ?_⟩
  · exact ((c10_clearTags_preserves_history lay0 lay0
      (addTag lay0 0 0 tagDataA initialState)).2.2.2.2.1
        (.add (buildTag tagDataA 0 0 0 0)) (by decide)).1
  · exact (c10_clearTags_preserves_history lay0 lay0
      (addTag lay0 0 0 tagDataA initialState)).2.2.2.2.2.1
        (buildTag tagDataA 0 0 0 0) (by decide)

/-- C3 counterexample: after a recorded `addTag`, `setTags([])` returns
with the undo stack still holding the `add` entry — the history is *not*
discarded, refuting "immediately after setTags returns, both the undo
stack and the redo stack are empty". -/
theorem c3_setTags_keeps_history_cex :
    (setTags lay0 (.fin 50) (.fin 50) (fun _ _ => .fin 20)
      (fun _ => false) (fun _ => false) (fun _ => (0, 0)) []
      (addTag lay0 0 0 tagDataA initialState)).undoStack ≠ [] := by
  decide

/-- C3 amended: `setTags(dataArray)` replaces the entire tag collection
with tags built from `dataArray` (one per input record), but leaves both
the undo stack and the redo stack exactly as they were — it does not
discard history. -/
theorem c3_setTags_replaces_tags_keeps_history (layout : Layout)
    (cx cy : JsNum) (measure : JsNum → String → JsNum)
    (imgReady svgReady : Nat → Bool) (angles : Nat → ℚ × ℚ)
    (dataArray : List TagData) (s : OrbityState) :
    (setTags layout cx cy measure imgReady svgReady angles dataArray s).undoStack
        = s.undoStack ∧
    (setTags layout cx cy measure imgReady svgReady angles dataArray s).redoStack
        = s.redoStack ∧
    (setTags layout cx cy measure imgReady svgReady angles dataArray s).tags.length
        = dataArray.length := by
  refine ⟨rfl, rfl, ?_⟩
  unfold setTags
  rw [drawPass_tags_length]
  simp [length_positionTags, length_reindexTags, List.enum_length]

/-- C4 counterexample: `updateOptions({easing: 0.7})` stores `0.7`, outside
`[0.01, 0.5]`, and `updateOptions({speed: 100})` stores `100`, outside
`[0.001, 5]` — the update path does not clamp. -/
theorem c4_updateOptions_no_clamp_cex :
    (updateOptions { easing := some (.num (7/10)) } {}).easing = 7/10 ∧
    ¬ (updateOptions { easing := some (.num (7/10)) } {}).easing ≤ 1/2 ∧
    (updateOptions { speed := some (.num 100) } {}).speed = 100 ∧
    ¬ (updateOptions { speed := some (.num 100) } {}).speed ≤ 5 := by
  refine ⟨rfl, by norm_num [updateOptions, setEasingProfile], rfl,
          by norm_num [updateOptions, setEasingProfile]⟩

theorem setEasingProfile_easing (p : String) (st : Settings) :
    (setEasingProfile p st).easing = st.easing := by
  unfold setEasingProfile
  split
  · rfl
  · cases easingProfiles p <;> simp

theorem setEasingProfile_speed (p : String) (st : Settings) :
    (setEasingProfile p st).speed = st.speed := by
  unfold setEasingProfile
  split
  · rfl
  · cases easingProfiles p <;> simp

/-- C4 amended: the constructor clamps `easing` into `[0.01, 0.5]` and
`speed` into `[0.001, 5]` for every (finite numeric) option record, and a
non-numeric value given to `updateOptions` falls back to the documented
default (`0.1` / `1`); but `updateOptions` performs no clamping — any
supplied number is stored verbatim, in or out of range. -/
theorem c4_settings_ranges (o : COptions) (n : NewOptions) (st : Settings) :
    (1/100 ≤ (mkSettings o).easing ∧ (mkSettings o).easing ≤ 1/2) ∧
    (1/1000 ≤ (mkSettings o).speed ∧ (mkSettings o).speed ≤ 5) ∧
    (∀ q, n.easing = some (.num q) → (updateOptions n st).easing = q) ∧
    (n.easing = some .other → (updateOptions n st).easing = 1/10) ∧
    (∀ q, n.speed = some (.num q) → (updateOptions n st).speed = q) ∧
    (n.speed = some .other → (updateOptions n st).speed = 1) := by
  refine ⟨⟨?_, ?_⟩, ⟨?_, ?_⟩, ?_, ?_, ?_, ?_⟩
  · exact le_min (le_max_right _ _) (by norm_num)
  · exact min_le_right _ _
  · exact le_min (le_max_right _ _) (by norm_num)
  · exact min_le_right _ _
  · intro q hq
    cases hp : n.easingProfile <;>
      simp [updateOptions, hq, hp, setEasingProfile_easing]
  · intro hq
    cases hp : n.easingProfile <;>
      simp [updateOptions, hq, hp, setEasingProfile_easing]
  · intro q hq
    cases hp : n.easingProfile <;>
      simp [updateOptions, hq, hp, setEasingProfile_speed]
  · intro hq
    cases hp : n.easingProfile <;>
      simp [updateOptions, hq, hp, setEasingProfile_speed]

theorem c4_settings_ranges_witness :
    (1/100 ≤ (mkSettings {}).easing ∧ (mkSettings {}).easing ≤ 1/2) ∧
    (updateOptions { easing := some (.num (7/10)) } {}).easing = 7/10 :=
  ⟨(c4_settings_ranges {} {} {}).1,
   (c4_settings_ranges {} { easing := some (.num (7/10)) } {}).2.2.1
     (7/10) rfl⟩

/-- C5 counterexample: `on("pause", cb)` registers nothing (the `_events`
object has no `pause` key and `on` skips unknown names), and `pause()` /
`resume()` invoke no callbacks — refuting that `on`/`off` accept all five
event names and that pause/resume callbacks are invoked. -/
theorem c5_pause_event_not_registered_cex :
    onEvent "pause" 7 initialEvents = initialEvents ∧
    pauseFired (onEvent "pause" 7 initialEvents) = [] ∧
    onEvent "resume" 7 initialEvents = initialEvents ∧
    resumeFired (onEvent "resume" 7 initialEvents) = [] := by
  decide

/-- C5 amended: `on`/`off` accept exactly the three event names
`tagClick`, `tagHover`, `tagLeave` — any other name (including `pause` and
`resume`) is a silent no-op — and the optional chains in `pause()` /
`resume()` therefore never invoke any callback. -/
theorem c5_event_names (name : String) (cb : Nat) (e : Events)
    (st : Settings) :
    (name = "tagClick" →
      onEvent name cb e = { e with tagClick := e.tagClick ++ [cb] }) ∧
    (name = "tagHover" →
      onEvent name cb e = { e with tagHover := e.tagHover ++ [cb] }) ∧
    (name = "tagLeave" →
      onEvent name cb e = { e with tagLeave := e.tagLeave ++ [cb] }) ∧
    (name ≠ "tagClick" → name ≠ "tagHover" → name ≠ "tagLeave" →
      onEvent name cb e = e ∧ offEvent name none e = e) ∧
    (pauseOp st e).2 = [] ∧
    (resumeOp st e).2 = [] := by
  refine ⟨?_, ?_, ?_, ?_, ?_, ?_⟩
  · intro h; subst h; rfl
  · intro h; subst h; rfl
  · intro h; subst h; rfl
  · intro h1 h2 h3
    constructor <;> simp [onEvent, offEvent, eventsGet, h1, h2, h3]
  · simp [pauseOp, pauseFired, eventsGet]
  · unfold resumeOp
    split <;> simp [resumeFired, eventsGet]

theorem c5_event_names_witness :
    (onEvent "pause" 7 initialEvents = initialEvents ∧
      offEvent "pause" none initialEvents = initialEvents) ∧
    onEvent "tagClick" 7 initialEvents
      = { initialEvents with tagClick := initialEvents.tagClick ++ [7] } :=
  ⟨(c5_event_names "pause" 7 initialEvents {}).2.2.2.1
      (by decide) (by decide) (by decide),
   (c5_event_names "tagClick" 7 initialEvents {}).1 rfl⟩

theorem stepS_zero (f t : ℚ) (ht : 0 < t) : stepS f t 0 = 0 := by
  simp [stepS, ht]

theorem stepS_iter_zero (f t : ℚ) (ht : 0 < t) :
    ∀ n, (stepS f t)^[n] 0 = 0 := by
  intro n
  induction n with
  | zero => rfl
  | succ n ih => rw [Function.iterate_succ_apply, stepS_zero f t ht, ih]

theorem stepS_decay (f t : ℚ) (hf0 : 0 < f) (hf1 : f < 1) (ht : 0 < t) :
    ∀ (n : ℕ) (v : ℚ), |v| * f ^ n < t → (stepS f t)^[n + 1] v = 0 := by
  intro n
  induction n with
  | zero =>
      intro v h
      rw [pow_zero, mul_one] at h
      have habs : |v * f| < t := by
        rw [abs_mul, abs_of_pos hf0]
        calc |v| * f ≤ |v| * 1 :=
              mul_le_mul_of_nonneg_left (le_of_lt hf1) (abs_nonneg v)
          _ = |v| := mul_one _
          _ < t := h
      simp [stepS, habs]
  | succ n ih =>
      intro v h
      rw [Function.iterate_succ_apply]
      by_cases hsnap : |v * f| < t
      · have : stepS f t v = 0 := by simp [stepS, hsnap]
        rw [this]
        exact ih 0 (by simpa using ht)
      · have hstep : stepS f t v = v * f := by simp [stepS, hsnap]
        rw [hstep]
        refine ih (v * f) ?_
        rw [abs_mul, abs_of_pos hf0, mul_assoc]
        calc |v| * (f * f ^ n) = |v| * f ^ (n + 1) := by rw [← pow_succ']
          _ < t := h

theorem stepS_eventually_zero (f t : ℚ) (hf0 : 0 < f) (hf1 : f < 1)
    (ht : 0 < t) (v : ℚ) : ∃ n, (stepS f t)^[n] v = 0 := by
  have hinv : 1 < f⁻¹ := (one_lt_inv₀ hf0).mpr hf1
  obtain ⟨n, hn⟩ := pow_unbounded_of_one_lt (|v| / t) hinv
  refine ⟨n + 1, stepS_decay f t hf0 hf1 ht n v ?_⟩
  have hfn : (0:ℚ) < f ^ n := pow_pos hf0 n
  rw [inv_pow] at hn
  have h1 : |v| < (f ^ n)⁻¹ * t := by rwa [div_lt_iff₀ ht] at hn
  have h2 : |v| * f ^ n < ((f ^ n)⁻¹ * t) * f ^ n :=
    mul_lt_mul_of_pos_right h1 hfn
  have h3 : ((f ^ n)⁻¹ * t) * f ^ n = t := by field_simp
  linarith

theorem easeOut_iter_components (f t : ℚ) (n : ℕ) (v : ℚ × ℚ) :
    (easeOutStep f t)^[n] v = ((stepS f t)^[n] v.1, (stepS f t)^[n] v.2) := by
  induction n generalizing v with
  | zero => rfl
  | succ n ih =>
      rw [Function.iterate_succ_apply, Function.iterate_succ_apply,
        Function.iterate_succ_apply]
      exact ih (easeOutStep f t v)

/-- C9: with friction in `(0, 1)` and a positive minimum-velocity
threshold, the friction-decay loop started on drag release reaches the
zero velocity in finitely many steps, and at zero it no longer reschedules
itself (and zero is a fixed point of the step). -/
theorem c9_friction_decay_terminates (f t vx vy : ℚ) (hf0 : 0 < f)
    (hf1 : f < 1) (ht : 0 < t) :
    ∃ n, (easeOutStep f t)^[n] (vx, vy) = (0, 0) ∧
      ¬ easeOutReschedules ((easeOutStep f t)^[n] (vx, vy)) ∧
      easeOutStep f t (0, 0) = (0, 0) := by
  obtain ⟨nx, hnx⟩ := stepS_eventually_zero f t hf0 hf1 ht vx
  obtain ⟨ny, hny⟩ := stepS_eventually_zero f t hf0 hf1 ht vy
  have hx : (stepS f t)^[max nx ny] vx = 0 := by
    have h := Function.iterate_add_apply (stepS f t) (max nx ny - nx) nx vx
    rw [Nat.sub_add_cancel (Nat.le_max_left nx ny)] at h
    rw [h, hnx, stepS_iter_zero f t ht]
  have hy : (stepS f t)^[max nx ny] vy = 0 := by
    have h := Function.iterate_add_apply (stepS f t) (max nx ny - ny) ny vy
    rw [Nat.sub_add_cancel (Nat.le_max_right nx ny)] at h
    rw [h, hny, stepS_iter_zero f t ht]
  refine ⟨max nx ny, ?_, ?_, ?_⟩
  · rw [easeOut_iter_components]
    simp [hx, hy]
  · rw [easeOut_iter_components]
    simp [easeOutReschedules, hx, hy]
  · simp [easeOutStep, stepS_zero f t ht]

theorem c9_friction_decay_terminates_witness :
    ∃ n, (easeOutStep (1/2) (1/100))^[n] (1, 1) = (0, 0) ∧
      ¬ easeOutReschedules ((easeOutStep (1/2) (1/100))^[n] (1, 1)) ∧
      easeOutStep (1/2) (1/100) (0, 0) = (0, 0) :=
  c9_friction_decay_terminates (1/2) (1/100) 1 1
    (by norm_num) (by norm_num) (by norm_num)

/-- C2 counterexample: directly after `addTag`, the pushed history entry
and the live tag share the same `_screen` heap reference — the snapshot is
a top-level copy, not an independent deep copy, refuting "no aliasing with
live tag objects". -/
theorem c2_snapshot_aliasing_cex :
    ¬ snapshotsIndependent (addTag lay0 0 0 tagDataA initialState) := by
  decide

/-- C2 amended: history snapshots are top-level copies whose `_screen`
reference aliases the live tag's, but none of the live-tag mutations the
engine performs — the per-tick rotation writing `x`/`y`/`z`, the hover
effect writing `_scale`/`_color`/`_opacity`, and the draw pass rebinding
`_screen` to a freshly allocated box — ever changes a history entry or the
contents of any already-allocated `_screen` object, so the state a
snapshot captured stays observable unchanged. -/
theorem c2_snapshot_stability (cY sY cX sX cx cy : JsNum)
    (measure : JsNum → String → JsNum) (imgReady svgReady : Nat → Bool)
    (i : Nat) (hs : ℚ) (hc : String) (ho : ℚ) (s : OrbityState) (r : Nat)
    (hr : r < s.screens.length) :
    (rotateTagsTick cY sY cX sX s).undoStack = s.undoStack ∧
    (rotateTagsTick cY sY cX sX s).redoStack = s.redoStack ∧
    (rotateTagsTick cY sY cX sX s).screens = s.screens ∧
    (applyHoverEffect i hs hc ho s).undoStack = s.undoStack ∧
    (applyHoverEffect i hs hc ho s).redoStack = s.redoStack ∧
    (applyHoverEffect i hs hc ho s).screens = s.screens ∧
    (drawPass cx cy measure imgReady svgReady s).undoStack = s.undoStack ∧
    (drawPass cx cy measure imgReady svgReady s).redoStack = s.redoStack ∧
    (drawPass cx cy measure imgReady svgReady s).screens[r]? = s.screens[r]? := by
  refine ⟨rfl, rfl, rfl, ?_, ?_, ?_, rfl, rfl, ?_⟩
  · unfold applyHoverEffect; cases s.tags[i]? <;> rfl
  · unfold applyHoverEffect; cases s.tags[i]? <;> rfl
  · unfold applyHoverEffect; cases s.tags[i]? <;> rfl
  · exact drawLoop_screens_stable cx cy measure imgReady svgReady _ _ _ r hr

theorem c2_snapshot_stability_witness :
    (drawPass (.fin 50) (.fin 50) (fun _ _ => .fin 20) (fun _ => false)
        (fun _ => false)
        (addTag lay0 0 0 tagDataA initialState)).screens[0]?
      = (addTag lay0 0 0 tagDataA initialState).screens[0]? :=
  (c2_snapshot_stability (.fin 1) (.fin 0) (.fin 1) (.fin 0) (.fin 50)
    (.fin 50) (fun _ _ => .fin 20) (fun _ => false) (fun _ => false)
    0 1 "" 1 (addTag lay0 0 0 tagDataA initialState) 0 (by decide)).2.2.2.2.2.2.2.2

/-- C8 counterexample: for a tag at depth `+Infinity` the perspective
denominator is non-finite yet passes the `> 0` guard, and the computed
scale is `0`, not the claimed fallback `1`. -/
theorem c8_scale_fallback_cex :
    (denomOf (.fin 100) tagInfZ).isFiniteB = false ∧
    jsGtB (denomOf (.fin 100) tagInfZ) (.fin 0) = true ∧
    projScale (.fin 100) tagInfZ = .fin 0 ∧
    projScale (.fin 100) tagInfZ ≠ .fin 1 := by
  decide

/-- C8 amended: the scale falls back to `1` exactly when the denominator
fails the `> 0` test (which covers every non-positive and NaN denominator,
so no division by a non-positive denominator ever happens; a `+Infinity`
denominator passes the test and yields scale `0` by a well-defined
division); a non-finite screen coordinate falls back to the viewport
center; and the draw pass processes every tag — its collection length is
preserved whatever degenerate values individual tags hold. -/
theorem c8_projection_guards (cx cy : JsNum) (t : Tag)
    (measure : JsNum → String → JsNum) (imgReady svgReady : Nat → Bool)
    (s : OrbityState) :
    (jsGtB (denomOf cx t) (.fin 0) = false → projScale cx t = .fin 1) ∧
    (jsGtB (denomOf cx t) (.fin 0) = true →
      denomOf cx t = .posInf ∨ ∃ q, denomOf cx t = .fin q ∧ 0 < q) ∧
    (∀ q, cx = .fin q → denomOf cx t = .posInf → projScale cx t = .fin 0) ∧
    ((rawScreenX cx t).isFiniteB = false → (projectTag cx cy t).2.1 = cx) ∧
    ((rawScreenY cx cy t).isFiniteB = false →
      (projectTag cx cy t).2.2.1 = cy) ∧
    (drawPass cx cy measure imgReady svgReady s).tags.length
      = s.tags.length := by
  refine ⟨?_, ?_, ?_, ?_, ?_, drawPass_tags_length cx cy measure imgReady svgReady s⟩
  · intro h; simp [projScale, h]
  · intro h
    cases hd : denomOf cx t with
    | posInf => exact Or.inl rfl
    | fin q =>
        refine Or.inr ⟨q, rfl, ?_⟩
        rw [hd] at h
        simpa [jsGtB, jsLtB] using h
    | negInf => rw [hd] at h; simp [jsGtB, jsLtB] at h
    | nan => rw [hd] at h; simp [jsGtB, jsLtB] at h
  · intro q hq hd
    subst hq
    simp [projScale, hd, jsGtB, jsLtB, jsMul, jsDiv]
  · intro h
    simp [projectTag, h]
  · intro h
    simp [projectTag, h]

theorem c8_projection_guards_witness :
    projScale (.fin 100) tagNegDenom = .fin 1 ∧
    projScale (.fin 100) tagInfZ = .fin 0 :=
  ⟨(c8_projection_guards (.fin 100) (.fin 0) tagNegDenom
      (fun _ _ => .fin 0) (fun _ => false) (fun _ => false) initialState).1
      (by decide),
   (c8_projection_guards (.fin 100) (.fin 0) tagInfZ
      (fun _ _ => .fin 0) (fun _ => false) (fun _ => false) initialState).2.2.1
      100 rfl (by decide)⟩

/-- C1: starting from the post-constructor empty store,
`addTag(A); removeTag(0); undo(); undo()` restores the pre-`addTag` empty
tag collection, and `redo(); redo()` replays back to the post-`removeTag`
collection, tag for tag, for every layout rule and every valid input. -/
theorem c1_undo_redo_roundtrip (layout : Layout) (aX aY : ℚ) (A : TagData)
    (hA : validateTag A = true) :
    (undo layout (undo layout (removeTag layout 0
        (addTag layout aX aY A initialState)))).tags
      = initialState.tags ∧
    (redo layout (redo layout (undo layout (undo layout (removeTag layout 0
        (addTag layout aX aY A initialState)))))).tags
      = (removeTag layout 0 (addTag layout aX aY A initialState)).tags := by
  have h1 : addTag layout aX aY A initialState =
      (⟨[applyLayout layout 1 0 { buildTag A aX aY 0 0 with index := 0 }],
        [.add (buildTag A aX aY 0 0)], [], [none]⟩ : OrbityState) := by
    simp only [addTag, hA, if_true]
    rfl
  have h2 : removeTag layout 0
      (⟨[applyLayout layout 1 0 { buildTag A aX aY 0 0 with index := 0 }],
        [.add (buildTag A aX aY 0 0)], [], [none]⟩ : OrbityState) =
      (⟨[], [.add (buildTag A aX aY 0 0),
             .remove (applyLayout layout 1 0
               { buildTag A aX aY 0 0 with index := 0 }) 0], [],
        [none]⟩ : OrbityState) := rfl
  have h3 : undo layout
      (⟨[], [.add (buildTag A aX aY 0 0),
             .remove (applyLayout layout 1 0
               { buildTag A aX aY 0 0 with index := 0 }) 0], [],
        [none]⟩ : OrbityState) =
      (⟨[applyLayout layout 1 0 { applyLayout layout 1 0
            { buildTag A aX aY 0 0 with index := 0 } with index := 0 }],
        [.add (buildTag A aX aY 0 0)],
        [.remove (applyLayout layout 1 0
          { buildTag A aX aY 0 0 with index := 0 }) 0],
        [none]⟩ : OrbityState) := rfl
  have h4 : undo layout
      (⟨[applyLayout layout 1 0 { applyLayout layout 1 0
            { buildTag A aX aY 0 0 with index := 0 } with index := 0 }],
        [.add (buildTag A aX aY 0 0)],
        [.remove (applyLayout layout 1 0
          { buildTag A aX aY 0 0 with index := 0 }) 0],
        [none]⟩ : OrbityState) =
      (⟨[], [],
        [.remove (applyLayout layout 1 0
           { buildTag A aX aY 0 0 with index := 0 }) 0,
         .add (buildTag A aX aY 0 0)],
        [none]⟩ : OrbityState) := rfl
  have h5 : redo layout
      (⟨[], [],
        [.remove (applyLayout layout 1 0
           { buildTag A aX aY 0 0 with index := 0 }) 0,
         .add (buildTag A aX aY 0 0)],
        [none]⟩ : OrbityState) =
      (⟨[applyLayout layout 1 0 { buildTag A aX aY 0 0 with index := 0 }],
        [.add (buildTag A aX aY 0 0)],
        [.remove (applyLayout layout 1 0
          { buildTag A aX aY 0 0 with index := 0 }) 0],
        [none]⟩ : OrbityState) := rfl
  have h6 : redo layout
      (⟨[applyLayout layout 1 0 { buildTag A aX aY 0 0 with index := 0 }],
        [.add (buildTag A aX aY 0 0)],
        [.remove (applyLayout layout 1 0
          { buildTag A aX aY 0 0 with index := 0 }) 0],
        [none]⟩ : OrbityState) =
      (⟨[], [.add (buildTag A aX aY 0 0),
             .remove (applyLayout layout 1 0
               { buildTag A aX aY 0 0 with index := 0 }) 0], [],
        [none]⟩ : OrbityState) := rfl
  constructor
  · rw [h1, h2, h3, h4]
    rfl
  · rw [h1, h2, h3, h4, h5, h6]

theorem c1_undo_redo_roundtrip_witness :
    (undo lay0 (undo lay0 (removeTag lay0 0
        (addTag lay0 0 0 tagDataA initialState)))).tags
      = initialState.tags ∧
    (redo lay0 (redo lay0 (undo lay0 (undo lay0 (removeTag lay0 0
        (addTag lay0 0 0 tagDataA initialState)))))).tags
      = (removeTag lay0 0 (addTag lay0 0 0 tagDataA initialState)).tags :=
  c1_undo_redo_roundtrip lay0 0 0 tagDataA (by decide)

/-- C7 amended: hit testing iterates the collection from last to first and
returns the first tag whose last-computed box contains the pointer under
the axis-aligned test — so on overlap the tag *latest in the collection*
wins, which need not be the most recently drawn one (the draw pass orders
by depth, not collection position); a tag whose box was never computed
never matches; and null is returned exactly when no box contains the
pointer. -/
theorem c7_hit_test_last_match (s : OrbityState) (pt : JsNum × JsNum) :
    (∀ t, getTagAt s pt = some t →
      screenMatches s.screens t pt = true ∧
      ∃ pre post, s.tags = pre ++ t :: post ∧
        ∀ u ∈ post, screenMatches s.screens u pt = false) ∧
    (getTagAt s pt = none ↔
      ∀ t ∈ s.tags, screenMatches s.screens t pt = false) ∧
    (∀ t, screenMatches s.screens t pt = true →
      ∃ b, s.screens[t.screenRef]? = some (some b) ∧ hitBox b pt = true) := by
  refine ⟨?_, ?_, ?_⟩
  · intro t h
    obtain ⟨hpt, l₁, l₂, hrev, hl₁⟩ :=
      find?_decomp (fun u => screenMatches s.screens u pt) s.tags.reverse t h
    refine ⟨hpt, l₂.reverse, l₁.reverse, ?_, ?_⟩
    · have : s.tags.reverse.reverse = (l₁ ++ t :: l₂).reverse := by rw [hrev]
      simpa [List.reverse_append] using this
    · intro u hu
      exact hl₁ u (List.mem_reverse.mp hu)
  · unfold getTagAt
    rw [List.find?_eq_none]
    constructor
    · intro h t ht
      simpa using h t (List.mem_reverse.mpr ht)
    · intro h t ht
      simpa using h t (List.mem_reverse.mp ht)
  · intro t h
    unfold screenMatches at h
    rcases hd : s.screens[t.screenRef]? with _ | b
    · rw [hd] at h; simp at h
    · rcases b with _ | box
      · rw [hd] at h; simp at h
      · rw [hd] at h
        exact ⟨box, rfl, h⟩

/-- C7 counterexample: after a draw pass over two overlapping tags, both
boxes contain the pointer; the hit test returns the tag at position 1
(latest in the collection), but the most recently drawn (visually topmost)
matching tag is the one at position 0 — `z = -10` is nearer, drawn last —
refuting "when boxes overlap the visually topmost (most recently drawn)
tag wins". -/
theorem c7_topmost_drawn_cex :
    (getTagAt c7Drawn c7Pt).map Tag.index = some 1 ∧
    lastDrawnHitPos c7Drawn c7Pt = some 0 ∧
    (∀ t ∈ c7Drawn.tags, screenMatches c7Drawn.screens t c7Pt = true) := by
  norm_num [c7Drawn, c7State0, c7Pt, cexTag, drawPass, drawOrder, drawFilter,
    sortByZDesc, insertByZ, drawLoop, drawTagScreen, projectTag, projScale,
    denomOf, rawScreenX, rawScreenY, numOf, finOr, scaleOr1, truthyS,
    jsAdd, jsMul, jsDiv, jsNeg, jsSub, jsAbs, jsLeB, jsLtB, jsGtB,
    JsNum.isFiniteB, setTagScreenRef, getTagAt, screenMatches, hitBox,
    lastDrawnHitPos, show ("t0" : String) ≠ "" from by decide,
    show ("t1" : String) ≠ "" from by decide]

theorem c7_hit_test_last_match_witness :
    getTagAt initialState (.fin 0, .fin 0) = none :=
  (c7_hit_test_last_match initialState (.fin 0, .fin 0)).2.1.mpr
    (by intro t ht; cases ht)

end Orbity
